import Mathlib

/-!
Verification of `pyrogram/types/messages_and_media/reaction.py`.

Shallow embedding of the reaction data model and its parse/write
operations. Python values that may be `None` are `Option`; Python
integers are unbounded, so they are `Int`; a Python exception is an
`Except.error` carrying the exception kind.
-/

namespace PyrogramReaction

/-- Exceptions that the reaction module can raise. -/
inductive PyError where
  | nameError
  | attributeError
  | notImplementedError
deriving DecidableEq, Repr

/-- The wire union `raw.base.Reaction`: constructors `ReactionEmpty`,
`ReactionEmoji(emoticon)`, `ReactionCustomEmoji(document_id)`,
`ReactionPaid`, plus `unknownTag` standing for any other wire
constructor not handled by the module. -/
inductive RawReaction where
  | reactionEmpty
  | reactionEmoji (emoticon : Option String)
  | reactionCustomEmoji (document_id : Option Int)
  | reactionPaid
  | unknownTag (tag : Nat)
deriving DecidableEq, Repr

/-- The wire record `raw.types.ReactionCount`: an inner reaction, a
required `count` and a flag-optional `chosen_order`. -/
structure RawReactionCount where
  reaction : RawReaction
  count : Int
  chosen_order : Option Int
deriving DecidableEq, Repr

/-- Which Python class a `ReactionType` value was constructed by:
the abstract base class or one of its three concrete subclasses. -/
inductive RTClass where
  | base
  | emoji
  | customEmoji
  | paid
deriving DecidableEq, Repr

/-- The domain class `ReactionType`. Its `__init__` stores `type`,
`emoji` and `custom_emoji_id` (each defaulting to `None`); `cls`
records the dynamic class, on which `write` dispatches. Equality of
`Object` instances is modelled as structural equality of the stored
attributes. -/
structure ReactionType where
  cls : RTClass
  type : Option String
  emoji : Option String
  custom_emoji_id : Option Int
deriving DecidableEq, Repr

/-- Constructor of `ReactionTypeEmoji`: calls
`super().__init__(type="emoji", emoji=emoji)`. -/
def ReactionTypeEmoji (emoji : Option String) : ReactionType :=
  { cls := RTClass.emoji, type := some "emoji", emoji := emoji,
    custom_emoji_id := none }

/-- Constructor of `ReactionTypeCustomEmoji`: calls
`super().__init__(type="custom_emoji", custom_emoji_id=custom_emoji_id)`. -/
def ReactionTypeCustomEmoji (custom_emoji_id : Option Int) : ReactionType :=
  { cls := RTClass.customEmoji, type := some "custom_emoji", emoji := none,
    custom_emoji_id := custom_emoji_id }

/-- Constructor of `ReactionTypePaid`: calls `super().__init__(type="paid")`. -/
def ReactionTypePaid : ReactionType :=
  { cls := RTClass.paid, type := some "paid", emoji := none,
    custom_emoji_id := none }

/-- `ReactionType._parse`: dispatches on the wire constructor.
`ReactionEmpty` returns `None`; the three known non-empty tags build
the matching concrete variant; any other tag falls off the end of the
`if`/`elif` chain, so Python returns `None` implicitly. -/
def ReactionType.parseRaw (update : RawReaction) : Option ReactionType :=
  match update with
  | RawReaction.reactionEmpty => none
  | RawReaction.reactionEmoji emoticon => some (ReactionTypeEmoji emoticon)
  | RawReaction.reactionCustomEmoji document_id =>
      some (ReactionTypeCustomEmoji document_id)
  | RawReaction.reactionPaid => some ReactionTypePaid
  | RawReaction.unknownTag _ => none

/-- The `write` method, dispatched on the dynamic class. The base
class raises `NotImplementedError`; `ReactionTypeEmoji.write` returns
`raw.types.ReactionEmoji(emoticon=self.emoji)`;
`ReactionTypeCustomEmoji.write` returns
`raw.types.ReactionCustomEmoji(document_id=self.custom_emoji_id)`;
`ReactionTypePaid.write` returns `raw.types.ReactionPaid()`. -/
def ReactionType.write (self : ReactionType) : Except PyError RawReaction :=
  match self.cls with
  | RTClass.base => Except.error PyError.notImplementedError
  | RTClass.emoji => Except.ok (RawReaction.reactionEmoji self.emoji)
  | RTClass.customEmoji =>
      Except.ok (RawReaction.reactionCustomEmoji self.custom_emoji_id)
  | RTClass.paid => Except.ok RawReaction.reactionPaid

/-- The domain class `Reaction`: its `__init__` stores only `type`,
`count` and `chosen_order`. -/
structure Reaction where
  type : Option ReactionType
  count : Option Int
  chosen_order : Option Int
deriving DecidableEq, Repr

/-- `Reaction.__init__`: accepts `type`, `count`, `chosen_order` and
`is_paid` keyword arguments but stores only the first three; the
`is_paid` argument is never assigned to an attribute. -/
def Reaction.init (type : Option ReactionType) (count : Option Int)
    (chosen_order : Option Int) (is_paid : Option Bool) : Reaction :=
  { type := type, count := count, chosen_order := chosen_order }

/-- `Reaction._parse`: dispatches on the outer wire constructor. In
the `ReactionEmoji` branch the source evaluates the bare name
`ReactionEmoji`, which is bound nowhere in the module (the only
definitions in scope are `Reaction`, `ReactionType`,
`ReactionTypeEmoji`, `ReactionTypeCustomEmoji`, `ReactionTypePaid`,
`ReactionCount`, `Optional`, `pyrogram`, `raw` and `Object`), so that
branch raises `NameError` before any `Reaction` is built. The custom
emoji and paid branches build a `Reaction` whose `type` is the
matching variant; every other tag falls through and returns `None`. -/
def Reaction.parseRaw (reaction : RawReaction) :
    Except PyError (Option Reaction) :=
  match reaction with
  | RawReaction.reactionEmoji _ => Except.error PyError.nameError
  | RawReaction.reactionCustomEmoji document_id =>
      Except.ok (some (Reaction.init
        (some (ReactionTypeCustomEmoji document_id)) none none none))
  | RawReaction.reactionPaid =>
      Except.ok (some (Reaction.init (some ReactionTypePaid) none none none))
  | RawReaction.reactionEmpty => Except.ok none
  | RawReaction.unknownTag _ => Except.ok none

/-- `Reaction._parse_count`: calls `Reaction._parse` on the inner
reaction and then assigns `reaction.count` and `reaction.chosen_order`
from the aggregate record. When `Reaction._parse` returned `None`,
the attribute assignment `reaction.count = ...` is performed on `None`
and raises `AttributeError`. -/
def Reaction.parseCount (reaction_count : RawReactionCount) :
    Except PyError Reaction := do
  let reaction ← Reaction.parseRaw reaction_count.reaction
  match reaction with
  | none => Except.error PyError.attributeError
  | some r =>
      Except.ok { r with count := some reaction_count.count,
                         chosen_order := reaction_count.chosen_order }

/-- The domain class `ReactionCount`: stores `type`, `total_count`
and `chosen_order`. -/
structure ReactionCount where
  type : Option ReactionType
  total_count : Int
  chosen_order : Option Int
deriving DecidableEq, Repr

/-- `ReactionCount._parse`: always builds a `ReactionCount`, with
`type` the result of `ReactionType._parse` on the inner reaction
(possibly `None`) and `total_count`, `chosen_order` copied from the
wire record. -/
def ReactionCount.parseRaw (update : RawReactionCount) : ReactionCount :=
  { type := ReactionType.parseRaw update.reaction,
    total_count := update.count,
    chosen_order := update.chosen_order }

/-- Claim C1: decoding the wire value produced by `write` on each
concrete `ReactionType` variant yields a value equal to the variant:
`ReactionType._parse(client, v.write(client)) == v` for
`v ∈ {ReactionTypeEmoji e, ReactionTypeCustomEmoji id, ReactionTypePaid}`. -/
theorem reactionType_decode_encode_roundtrip
    (e : Option String) (cid : Option Int) :
    Except.map ReactionType.parseRaw (ReactionTypeEmoji e).write =
      Except.ok (some (ReactionTypeEmoji e)) ∧
    Except.map ReactionType.parseRaw (ReactionTypeCustomEmoji cid).write =
      Except.ok (some (ReactionTypeCustomEmoji cid)) ∧
    Except.map ReactionType.parseRaw ReactionTypePaid.write =
      Except.ok (some ReactionTypePaid) :=
  ⟨rfl, rfl, rfl⟩

/-- Claim C2: for every wire value with one of the three known
non-empty tags, encoding the decoded value reproduces the wire value
exactly, field for field:
`ReactionType._parse(client, w).write(client) == w`. -/
theorem reactionType_encode_decode_roundtrip
    (e : Option String) (cid : Option Int) :
    Option.map ReactionType.write
        (ReactionType.parseRaw (RawReaction.reactionEmoji e)) =
      some (Except.ok (RawReaction.reactionEmoji e)) ∧
    Option.map ReactionType.write
        (ReactionType.parseRaw (RawReaction.reactionCustomEmoji cid)) =
      some (Except.ok (RawReaction.reactionCustomEmoji cid)) ∧
    Option.map ReactionType.write
        (ReactionType.parseRaw RawReaction.reactionPaid) =
      some (Except.ok RawReaction.reactionPaid) :=
  ⟨rfl, rfl, rfl⟩

/-- Claim C3 (code bug): on the plain-emoji outer wire tag,
`Reaction._parse` does not return a `Reaction` carrying the Emoji
variant: it evaluates the unbound module name `ReactionEmoji` and
raises `NameError`. The custom-emoji and paid branches do return the
matching variants. -/
theorem reaction_parse_emoji_raises_nameError :
    Reaction.parseRaw (RawReaction.reactionEmoji (some "👍")) =
      Except.error PyError.nameError ∧
    Reaction.parseRaw (RawReaction.reactionCustomEmoji (some 7)) =
      Except.ok (some { type := some (ReactionTypeCustomEmoji (some 7)),
                        count := none, chosen_order := none }) ∧
    Reaction.parseRaw RawReaction.reactionPaid =
      Except.ok (some { type := some ReactionTypePaid,
                        count := none, chosen_order := none }) :=
  ⟨rfl, rfl, rfl⟩

/-- Claim C4 (code bug): on the aggregate record whose inner reaction
is the plain-emoji wire value with emoticon "👍", count 42 and
chosen_order 3, `Reaction._parse_count` does not return a `Reaction`;
the inner `Reaction._parse` raises `NameError` (unbound name
`ReactionEmoji`) and the fault propagates. -/
theorem reaction_parseCount_emoji_raises_nameError :
    Reaction.parseCount
        { reaction := RawReaction.reactionEmoji (some "👍"),
          count := 42, chosen_order := some 3 } =
      Except.error PyError.nameError :=
  rfl

/-- Claim C5 counterexample: with the empty inner marker, count 5 and
chosen_order 1, `Reaction._parse_count` raises `AttributeError`
(attribute assignment on `None`) instead of producing a null-type
`Reaction` with count and chosen_order attached. -/
theorem reaction_parseCount_empty_counterexample :
    Reaction.parseCount
        { reaction := RawReaction.reactionEmpty,
          count := 5, chosen_order := some 1 } =
      Except.error PyError.attributeError :=
  rfl

/-- Claim C5 (amended): for every aggregate wire record whose inner
reaction is the empty marker or an unrecognized tag, the inner
`Reaction._parse` yields absence and `Reaction._parse_count` raises
`AttributeError` when assigning `count` on `None`; no `Reaction` is
produced and the fault propagates to the caller. -/
theorem reaction_parseCount_absent_inner_raises
    (c : Int) (o : Option Int) (tag : Nat) :
    Reaction.parseCount
        { reaction := RawReaction.reactionEmpty, count := c,
          chosen_order := o } = Except.error PyError.attributeError ∧
    Reaction.parseCount
        { reaction := RawReaction.unknownTag tag, count := c,
          chosen_order := o } = Except.error PyError.attributeError :=
  ⟨rfl, rfl⟩

/-- Claim C6: for every wire value with a tag outside the known set,
`ReactionType._parse` returns `None` and `Reaction._parse` returns
`None`, and no exception propagates in either case. -/
theorem parse_unknown_tag_yields_absence (tag : Nat) :
    ReactionType.parseRaw (RawReaction.unknownTag tag) = none ∧
    Reaction.parseRaw (RawReaction.unknownTag tag) = Except.ok none :=
  ⟨rfl, rfl⟩

/-- Claim C7: `ReactionType._parse` maps the explicit empty wire
marker to `None` without error, and for every aggregate record whose
inner reaction is the empty marker, `ReactionCount._parse` still
returns a `ReactionCount` with `type = None` and with `total_count`
and `chosen_order` equal to the wire record's `count` and
`chosen_order` fields. -/
theorem reactionCount_parse_empty_preserved (c : Int) (o : Option Int) :
    ReactionType.parseRaw RawReaction.reactionEmpty = none ∧
    ReactionCount.parseRaw
        { reaction := RawReaction.reactionEmpty, count := c,
          chosen_order := o } =
      { type := none, total_count := c, chosen_order := o } :=
  ⟨rfl, rfl⟩

/-- Claim C8: calling `write` on a `ReactionType` value that is not
one of the three concrete variants (a value of the base class, with
any stored attributes) raises `NotImplementedError` and never returns
a wire value. -/
theorem reactionType_base_write_not_implemented
    (t e : Option String) (cid : Option Int) :
    ReactionType.write
        { cls := RTClass.base, type := t, emoji := e,
          custom_emoji_id := cid } =
      Except.error PyError.notImplementedError :=
  rfl

/-- Claim C9: for every 64-bit integer id, decoding a custom-emoji
wire value preserves the identifier exactly (Python integers are
unbounded, so there is no precision loss), and encoding puts the same
integer back into the wire's `document_id` field. -/
theorem customEmoji_id_preserved_exactly
    (id : Int) (h : -(2 ^ 63) ≤ id ∧ id < 2 ^ 63) :
    Option.map ReactionType.custom_emoji_id
        (ReactionType.parseRaw (RawReaction.reactionCustomEmoji (some id))) =
      some (some id) ∧
    (ReactionTypeCustomEmoji (some id)).write =
      Except.ok (RawReaction.reactionCustomEmoji (some id)) :=
  ⟨rfl, rfl⟩

/-- Witness for claim C9 at the concrete identifier 123456789012345. -/
theorem customEmoji_id_preserved_exactly_witness :
    Option.map ReactionType.custom_emoji_id
        (ReactionType.parseRaw
          (RawReaction.reactionCustomEmoji (some 123456789012345))) =
      some (some 123456789012345) ∧
    (ReactionTypeCustomEmoji (some 123456789012345)).write =
      Except.ok (RawReaction.reactionCustomEmoji (some 123456789012345)) :=
  customEmoji_id_preserved_exactly 123456789012345 (by decide)

/-- Claim C10: the `is_paid` keyword parameter of the `Reaction`
constructor has no effect: for every combination of the other
arguments, any two values of `is_paid` produce objects with identical
stored state (`type`, `count`, `chosen_order`), and no `is_paid`
attribute is stored. -/
theorem reaction_init_ignores_is_paid
    (ty : Option ReactionType) (c o : Option Int) (p q : Option Bool) :
    Reaction.init ty c o p = Reaction.init ty c o q :=
  rfl

end PyrogramReaction
